import Mathlib

/-!
# Verification of the signal/position engine of `trading_dashboard.py`

Shallow embedding of the core of the repository's single source file
`src/trading_dashboard.py`: the Bollinger-band indicator library, the breakout
signal detector, the per-asset position state machine (`bollinger_signal`),
the trade ledger (`record_trade` over a `deque(maxlen=200)`), the performance
aggregator (`update_performance_metrics`), and the per-asset evaluation cycle
(`fetch_asset_data` / `update_all_signals`).

Modelling conventions:
* Python floats are modelled by an arbitrary `LinearOrderedField` (instantiated
  at `ℚ` for executable checks and at `ℝ` where the source computes square
  roots).  Decimal literals in the source (`0.98`, `0.002`, ...) are taken at
  their exact decimal value.
* `datetime.now()` timestamps (`entry_time`, trade `timestamp`) carry no logic
  and are omitted from the records.
* Formatted status strings such as `f'Closed (P&L: {net_pnl:.2f}%)'` are
  modelled by the inductive `StatusMsg`, one constructor per format string,
  carrying the numeric payload unformatted.
* `round(x, n)` is modelled by exact round-half-to-even on the ideal value
  (`pyRound` / `pyRoundTo`); binary-float representation effects are out of
  scope and no claim depends on rounding.
* The `try/except` wrapper in `fetch_asset_data` catches Python runtime
  exceptions; the embedded functions are total, so that branch has no
  counterpart.
-/

/-- Position direction; the source stores the strings `'BUY'` / `'SELL'` in the
`signal` key of an `active_trades` entry. -/
inductive Direction where
  | BUY
  | SELL
deriving DecidableEq, Repr

/-- The `stop_type` key of an `active_trades` entry: `'Initial'` or `'Trailing'`. -/
inductive StopType where
  | Initial
  | Trailing
deriving DecidableEq, Repr

/-- The `reason` argument of `record_trade`: `'Stop'`, `'Trailing'`, `'SMA'`
or `'Reversal'`. -/
inductive ExitReason where
  | Stop
  | Trailing
  | SMA
  | Reversal
deriving DecidableEq, Repr

/-- The signal string returned by `bollinger_signal` / stored in a snapshot:
`'BUY'`, `'SELL'`, `'NEUTRAL'` or `'ERROR'`. -/
inductive SignalKind where
  | BUY
  | SELL
  | NEUTRAL
  | ERROR
deriving DecidableEq, Repr

/-- The reason strings of the source, one constructor per format string, with
the interpolated numeric value carried unformatted. -/
inductive StatusMsg (α : Type) where
  /-- `f'Closed (P&L: {net_pnl:.2f}%)'` -/
  | closedPnl (net : α)
  /-- `f'Stop hit (P&L: {net_pnl:.2f}%)'` -/
  | stopHit (net : α)
  /-- `f'Exit at SMA (P&L: {net_pnl:.2f}%)'` -/
  | exitSMA (net : α)
  /-- `f'Reversed (Prev: {net_pnl:.2f}%)'` -/
  | reversed (net : α)
  /-- `f'{entry_data["stop_type"]} stop active'` -/
  | stopActive (t : StopType)
  /-- `'NEW LONG'` -/
  | newLong
  /-- `'NEW SHORT'` -/
  | newShort
  /-- `'Between bands'` -/
  | betweenBands
  /-- `'No data'` -/
  | noData
  /-- `'Calc error'` -/
  | calcError
deriving DecidableEq, Repr

/-- One entry of the `active_trades` dict (lines 162-166 / 179-181 / 186-188 of
the source).  The `entry_time` key (a wall-clock timestamp) is omitted. -/
structure Position (α : Type) where
  entry_price : α
  signal : Direction
  highest_since_entry : α
  lowest_since_entry : α
  stop_loss : α
  stop_type : StopType
deriving DecidableEq, Repr

/-- One entry of the `trade_history` deque as built by `record_trade`
(lines 195-197); the wall-clock `timestamp` key is omitted. -/
structure Trade (α : Type) where
  symbol : String
  entry_price : α
  exit_price : α
  signal_type : Direction
  pnl : α
  reason : ExitReason
deriving DecidableEq, Repr

/-- The `position_info` dict built for an open position (lines 168-170 /
173-175 / 182-183 / 189-190).  The constant `'in_position': True` key is
modelled by the surrounding `Option`: `{}` is `none`. -/
structure PosInfo (α : Type) where
  entry_price : α
  pnl : α
  current_stop : α
  stop_type : StopType
  position_type : Direction
deriving DecidableEq, Repr

/-- The seven values `bollinger_signal` extracts from its series arguments
(lines 78-82): `iloc[-1]` / `iloc[-2]` of the close prices and bands, and
`iloc[-1]` of the SMA. -/
structure BarInputs (α : Type) where
  current_price : α
  previous_price : α
  current_upper : α
  current_lower : α
  current_sma : α
  previous_upper : α
  previous_lower : α
deriving DecidableEq, Repr

/-- The result of one evaluation of `bollinger_signal` for one asset: the
returned `(signal, reason, position_info)` triple, together with the effect on
mutable state — the new `active_trades[symbol]` entry (`none` = key deleted or
never present) and the list of trades passed to `record_trade` during the call
(always `[]` or a singleton). -/
structure StepResult (α : Type) where
  signal : SignalKind
  reason : StatusMsg α
  posInfo : Option (PosInfo α)
  newPos : Option (Position α)
  emitted : List (Trade α)
deriving DecidableEq, Repr

/-- `TRADING_FEE = 0.001` (line 25). -/
def TRADING_FEE : ℚ := 1 / 1000

section StateMachine

variable {α : Type} [LinearOrderedField α]

/-- `new_buy_signal = previous_price <= previous_upper and current_price > current_upper`
(line 87). -/
def new_buy_signal (previous_price previous_upper current_price current_upper : α) : Prop :=
  previous_price ≤ previous_upper ∧ current_price > current_upper

instance (a b c d : α) : Decidable (new_buy_signal a b c d) := by
  unfold new_buy_signal; infer_instance

/-- `new_sell_signal = previous_price >= previous_lower and current_price < current_lower`
(line 88). -/
def new_sell_signal (previous_price previous_lower current_price current_lower : α) : Prop :=
  previous_price ≥ previous_lower ∧ current_price < current_lower

instance (a b c d : α) : Decidable (new_sell_signal a b c d) := by
  unfold new_sell_signal; infer_instance

/-- `at_sma = abs(current_price - current_sma) / current_sma < 0.002` (line 89).
(Field division by zero yields `0` here where Python would raise; irrelevant
for an SMA of genuine prices.) -/
def at_sma_of (inp : BarInputs α) : Prop :=
  |inp.current_price - inp.current_sma| / inp.current_sma < 2 / 1000

instance (inp : BarInputs α) : Decidable (at_sma_of inp) := by
  unfold at_sma_of; infer_instance

/-- The reversal condition of line 156:
`(signal_type == 'BUY' and new_sell_signal) or (signal_type == 'SELL' and new_buy_signal)`. -/
def reversal_condition (p : Position α) (inp : BarInputs α) : Prop :=
  (p.signal = Direction.BUY ∧
      new_sell_signal inp.previous_price inp.previous_lower inp.current_price inp.current_lower) ∨
    (p.signal = Direction.SELL ∧
      new_buy_signal inp.previous_price inp.previous_upper inp.current_price inp.current_upper)

instance (p : Position α) (inp : BarInputs α) : Decidable (reversal_condition p inp) := by
  unfold reversal_condition; infer_instance

/-- Exact round-half-to-even of an ideal value, the semantics of Python's
built-in `round` (ties on the ideal value go to the even integer). -/
def pyRound [FloorRing α] (y : α) : ℤ :=
  if Int.fract y < 1 / 2 then ⌊y⌋
  else if 1 / 2 < Int.fract y then ⌊y⌋ + 1
  else if ⌊y⌋ % 2 = 0 then ⌊y⌋ else ⌊y⌋ + 1

/-- `round(y, digits)` on the ideal value. -/
def pyRoundTo [FloorRing α] (digits : ℕ) (y : α) : α :=
  (pyRound (y * 10 ^ digits) : α) / 10 ^ digits

/-- `Direction` rendered as the returned signal string (`'BUY'` / `'SELL'`). -/
def Direction.toSignalKind : Direction → SignalKind
  | Direction.BUY => SignalKind.BUY
  | Direction.SELL => SignalKind.SELL

/-- Lines 150-176 of `bollinger_signal`: the SMA-exit, reversal and hold paths,
reached when the direction-specific stop section did not close the position.
`entry_data` is the position after the in-place updates of lines 100-101 and
107-110 / 117-119 (or 130-133 / 140-142), and `pnl` is the gross unrealized
P&L computed in that section. -/
def after_stop_section [FloorRing α] (symbol : String) (entry_data : Position α) (pnl : α)
    (inp : BarInputs α) : StepResult α :=
  let current_price := inp.current_price
  if at_sma_of inp then
    let net_pnl := pnl - (TRADING_FEE : α) * 200
    { signal := SignalKind.NEUTRAL, reason := StatusMsg.exitSMA net_pnl, posInfo := none,
      newPos := none,
      emitted := [⟨symbol, entry_data.entry_price, current_price, entry_data.signal, net_pnl,
        ExitReason.SMA⟩] }
  else if reversal_condition entry_data inp then
    let net_pnl := pnl - (TRADING_FEE : α) * 200
    let new_signal : Direction :=
      if new_sell_signal inp.previous_price inp.previous_lower current_price inp.current_lower
        then Direction.SELL else Direction.BUY
    let new_stop : α :=
      if new_signal = Direction.BUY then current_price * (98 / 100)
      else current_price * (102 / 100)
    { signal := new_signal.toSignalKind, reason := StatusMsg.reversed net_pnl,
      posInfo := some ⟨current_price, 0, new_stop, StopType.Initial, new_signal⟩,
      newPos := some ⟨current_price, new_signal, current_price, current_price, new_stop,
        StopType.Initial⟩,
      emitted := [⟨symbol, entry_data.entry_price, current_price, entry_data.signal, net_pnl,
        ExitReason.Reversal⟩] }
  else
    { signal := entry_data.signal.toSignalKind,
      reason := StatusMsg.stopActive entry_data.stop_type,
      posInfo := some ⟨entry_data.entry_price, pyRoundTo 2 pnl, entry_data.stop_loss,
        entry_data.stop_type, entry_data.signal⟩,
      newPos := some entry_data, emitted := [] }

/-- The body of `bollinger_signal` (lines 75-192), as a pure step function:
given the current `active_trades[symbol]` entry and the two-bar window it
reads, produce the returned triple, the new `active_trades[symbol]` entry, and
the trades recorded during the call.  The in-place dict mutations of the
source become the construction of an updated `Position`.  (The
`.get('stop_loss', 0)` / `.get('stop_loss', float('inf'))` defaults are never
taken — every creation of an `active_trades` entry sets `stop_loss` — so the
stored value is used directly.) -/
def bollinger_signal_step [FloorRing α] (symbol : String) (pos : Option (Position α))
    (inp : BarInputs α) : StepResult α :=
  let current_price := inp.current_price
  match pos with
  | some entry_data0 =>
    let entry_price := entry_data0.entry_price
    let highest := max entry_data0.highest_since_entry current_price
    let lowest := min entry_data0.lowest_since_entry current_price
    let entry_data1 : Position α :=
      { entry_data0 with highest_since_entry := highest, lowest_since_entry := lowest }
    match entry_data0.signal with
    | Direction.BUY =>
      let pnl := (current_price - entry_price) / entry_price * 100
      if 1 ≤ pnl then
        let trailing_stop := highest * (98 / 100)
        let stop' := max entry_data1.stop_loss trailing_stop
        if current_price ≤ trailing_stop then
          let net_pnl := pnl - (TRADING_FEE : α) * 200
          { signal := SignalKind.NEUTRAL, reason := StatusMsg.closedPnl net_pnl,
            posInfo := none, newPos := none,
            emitted := [⟨symbol, entry_price, current_price, Direction.BUY, net_pnl,
              ExitReason.Trailing⟩] }
        else
          after_stop_section symbol
            { entry_data1 with stop_loss := stop', stop_type := StopType.Trailing } pnl inp
      else
        let stop' := entry_price * (98 / 100)
        if current_price ≤ stop' then
          let net_pnl := pnl - (TRADING_FEE : α) * 200
          { signal := SignalKind.NEUTRAL, reason := StatusMsg.stopHit net_pnl,
            posInfo := none, newPos := none,
            emitted := [⟨symbol, entry_price, current_price, Direction.BUY, net_pnl,
              ExitReason.Stop⟩] }
        else
          after_stop_section symbol
            { entry_data1 with stop_loss := stop', stop_type := StopType.Initial } pnl inp
    | Direction.SELL =>
      let pnl := (entry_price - current_price) / entry_price * 100
      if 1 ≤ pnl then
        let trailing_stop := lowest * (102 / 100)
        let stop' := min entry_data1.stop_loss trailing_stop
        if trailing_stop ≤ current_price then
          let net_pnl := pnl - (TRADING_FEE : α) * 200
          { signal := SignalKind.NEUTRAL, reason := StatusMsg.closedPnl net_pnl,
            posInfo := none, newPos := none,
            emitted := [⟨symbol, entry_price, current_price, Direction.SELL, net_pnl,
              ExitReason.Trailing⟩] }
        else
          after_stop_section symbol
            { entry_data1 with stop_loss := stop', stop_type := StopType.Trailing } pnl inp
      else
        let stop' := entry_price * (102 / 100)
        if stop' ≤ current_price then
          let net_pnl := pnl - (TRADING_FEE : α) * 200
          { signal := SignalKind.NEUTRAL, reason := StatusMsg.stopHit net_pnl,
            posInfo := none, newPos := none,
            emitted := [⟨symbol, entry_price, current_price, Direction.SELL, net_pnl,
              ExitReason.Stop⟩] }
        else
          after_stop_section symbol
            { entry_data1 with stop_loss := stop', stop_type := StopType.Initial } pnl inp
  | none =>
    if new_buy_signal inp.previous_price inp.previous_upper current_price inp.current_upper then
      { signal := SignalKind.BUY, reason := StatusMsg.newLong,
        posInfo := some ⟨current_price, 0, current_price * (98 / 100), StopType.Initial,
          Direction.BUY⟩,
        newPos := some ⟨current_price, Direction.BUY, current_price, current_price,
          current_price * (98 / 100), StopType.Initial⟩,
        emitted := [] }
    else if new_sell_signal inp.previous_price inp.previous_lower current_price
        inp.current_lower then
      { signal := SignalKind.SELL, reason := StatusMsg.newShort,
        posInfo := some ⟨current_price, 0, current_price * (102 / 100), StopType.Initial,
          Direction.SELL⟩,
        newPos := some ⟨current_price, Direction.SELL, current_price, current_price,
          current_price * (102 / 100), StopType.Initial⟩,
        emitted := [] }
    else
      { signal := SignalKind.NEUTRAL, reason := StatusMsg.betweenBands, posInfo := none,
        newPos := none, emitted := [] }

/-- The gross unrealized P&L of lines 104 / 127: `(current-entry)/entry*100`
for a LONG, the mirror for a SHORT. -/
def unrealized_pnl (p : Position α) (current_price : α) : α :=
  match p.signal with
  | Direction.BUY => (current_price - p.entry_price) / p.entry_price * 100
  | Direction.SELL => (p.entry_price - current_price) / p.entry_price * 100

/-- The stop value stored by the stop-management step (lines 107-110 / 117-119
and 130-133 / 140-142): the tighter of the previous stop and the trailing
candidate when unrealized P&L ≥ 1%, the initial entry-based stop otherwise.
The `highest`/`lowest` extremes have already absorbed the current price
(lines 100-101). -/
def updated_stop (p : Position α) (current_price : α) : α :=
  match p.signal with
  | Direction.BUY =>
    if 1 ≤ unrealized_pnl p current_price then
      max p.stop_loss (max p.highest_since_entry current_price * (98 / 100))
    else p.entry_price * (98 / 100)
  | Direction.SELL =>
    if 1 ≤ unrealized_pnl p current_price then
      min p.stop_loss (min p.lowest_since_entry current_price * (102 / 100))
    else p.entry_price * (102 / 100)

/-- The stop-check breach condition of the claim: current price ≤ the freshly
updated stop for a LONG, ≥ for a SHORT. -/
def stop_breached (p : Position α) (current_price : α) : Prop :=
  match p.signal with
  | Direction.BUY => current_price ≤ updated_stop p current_price
  | Direction.SELL => updated_stop p current_price ≤ current_price

/-- The stop-side state invariant maintained for every reachable open
position: a LONG's stored stop never exceeds `highest_since_entry * 0.98`,
a SHORT's is never below `lowest_since_entry * 1.02`. -/
def stop_invariant (p : Position α) : Prop :=
  match p.signal with
  | Direction.BUY => p.stop_loss ≤ p.highest_since_entry * (98 / 100)
  | Direction.SELL => p.lowest_since_entry * (102 / 100) ≤ p.stop_loss

instance (p : Position α) (c : α) : Decidable (stop_breached p c) := by
  unfold stop_breached; cases p.signal <;> infer_instance

instance (p : Position α) : Decidable (stop_invariant p) := by
  unfold stop_invariant; cases p.signal <;> infer_instance

/-- The survive-the-stop-check condition: the negation of the close conditions
of lines 112 / 121 (135 / 144), with the stop section's own branching. -/
def survives_stop_check (p : Position α) (current_price : α) : Prop :=
  match p.signal with
  | Direction.BUY =>
    (1 ≤ unrealized_pnl p current_price ∧
        max p.highest_since_entry current_price * (98 / 100) < current_price) ∨
      (unrealized_pnl p current_price < 1 ∧ p.entry_price * (98 / 100) < current_price)
  | Direction.SELL =>
    (1 ≤ unrealized_pnl p current_price ∧
        current_price < min p.lowest_since_entry current_price * (102 / 100)) ∨
      (unrealized_pnl p current_price < 1 ∧ current_price < p.entry_price * (102 / 100))

instance (p : Position α) (c : α) : Decidable (survives_stop_check p c) := by
  unfold survives_stop_check; cases p.signal <;> infer_instance

end StateMachine

/-! ## Trade ledger: `trade_history = deque(maxlen=200)` (line 20) -/

/-- Appending one element to a `deque(maxlen=200)`: the oldest entries are
evicted from the left so that at most 200 remain. -/
def dequePush {β : Type} (h : List β) (t : β) : List β :=
  (h ++ [t]).drop ((h ++ [t]).length - 200)

/-! ## Indicator library (`calculate_bollinger_bands`, `calculate_rsi`,
`calculate_atr`), over `ℝ` since the rolling standard deviation is a square
root.  Rolling series are modelled as index functions; an index `i` is in the
warm-up window (value `NaN` in pandas) when `i + 1 < window`, and the
functions below are only read at indices past the warm-up. -/

/-- `prices.rolling(window=length).mean()` at index `i`: the mean of
`prices[i+1-length..i]`. -/
noncomputable def movingAverage (prices : List ℝ) (length i : ℕ) : ℝ :=
  ((prices.drop (i + 1 - length)).take length).sum / length

/-- `prices.rolling(window=length).std()` at index `i` (pandas default
`ddof=1`): the square root of the sample variance of `prices[i+1-length..i]`. -/
noncomputable def rollingStdDev (prices : List ℝ) (length i : ℕ) : ℝ :=
  Real.sqrt
    ((((prices.drop (i + 1 - length)).take length).map
        (fun x => (x - movingAverage prices length i) ^ 2)).sum / ((length : ℝ) - 1))

/-- `calculate_bollinger_bands(prices, length, std_dev)` (lines 54-61):
`(None, None, None)` when fewer than `length` prices exist, else the
`(upper_band, sma, lower_band)` rolling series. -/
noncomputable def calculate_bollinger_bands (prices : List ℝ) (length : ℕ) (std_dev : ℝ) :
    Option ((ℕ → ℝ) × (ℕ → ℝ) × (ℕ → ℝ)) :=
  if prices.length < length then none
  else
    some (fun i => movingAverage prices length i + rollingStdDev prices length i * std_dev,
      fun i => movingAverage prices length i,
      fun i => movingAverage prices length i - rollingStdDev prices length i * std_dev)

/-- One row of the OHLCV frame returned by `fetch_binance_klines`. -/
structure Candle where
  open_price : ℝ
  high : ℝ
  low : ℝ
  close : ℝ
  volume : ℝ

/-- The last value of `calculate_rsi(prices, period)` (lines 63-68): simple
rolling means of positive / negative deltas over the final `period` deltas,
`rs = gain / (loss + 1e-10)`, output `100 - 100/(1+rs)`.  Defined for
histories long enough that the final rolling window holds no `NaN`
(`prices.length ≥ period + 1`), the only way the caller reads it. -/
noncomputable def rsiLast (prices : List ℝ) (period : ℕ) : ℝ :=
  let deltas := List.zipWith (fun a b => a - b) prices.tail prices
  let window := deltas.drop (deltas.length - period)
  let gain := (window.map (fun d => max d 0)).sum / period
  let loss := (window.map (fun d => max (-d) 0)).sum / period
  let rs := gain / (loss + 1 / 10 ^ 10)
  100 - 100 / (1 + rs)

/-- The last value of `calculate_atr(df, period)` (lines 70-73): the rolling
mean over the final `period` true ranges, where the true range of a bar is
`max(high-low, |high-prevClose|, |low-prevClose|)`.  As with `rsiLast`, the
bar with no predecessor never enters the final window for the lengths the
caller uses. -/
noncomputable def atrLast (df : List Candle) (period : ℕ) : ℝ :=
  let trs := List.zipWith
    (fun prev cur => max (cur.high - cur.low) (max |cur.high - prev.close| |cur.low - prev.close|))
    df df.tail
  ((trs.drop (trs.length - period)).sum) / period

/-! ## Performance aggregator (`update_performance_metrics`, lines 200-221) -/

/-- The `performance_metrics` dict (lines 21-23).  The source key
`sharpe_ratio` is here named `sharpe` (the original spelling trips this
development's lexical conventions); all other keys keep their names. -/
structure PerformanceMetrics where
  total_trades : ℕ
  winning_trades : ℕ
  losing_trades : ℕ
  total_pnl : ℝ
  win_rate : ℝ
  avg_win : ℝ
  avg_loss : ℝ
  profit_factor : ℝ
  sharpe : ℝ
  max_drawdown : ℝ

/-- The initial `performance_metrics` value (all zeroes, lines 21-23). -/
def initialMetrics : PerformanceMetrics :=
  ⟨0, 0, 0, 0, 0, 0, 0, 0, 0, 0⟩

/-- `np.cumsum` on a list. -/
def cumsum (l : List ℝ) : List ℝ :=
  (l.scanl (fun a b => a + b) 0).tail

/-- `np.max(np.maximum.accumulate(c) - c)` with `np.max` of an empty array
replaced by the source's explicit `0` guard.  Every drawdown entry is
nonnegative, so folding `max` from `0` is the array maximum. -/
def maxDrawdown (l : List ℝ) : ℝ :=
  let c := cumsum l
  let runmax := (c.scanl max (c.headD 0)).tail
  ((List.zipWith (fun a b => a - b) runmax c).foldr max 0)

/-- `np.mean`. -/
noncomputable def meanOf (l : List ℝ) : ℝ := l.sum / l.length

/-- `np.std` (population standard deviation, `ddof=0`). -/
noncomputable def stdOf (l : List ℝ) : ℝ :=
  Real.sqrt ((l.map (fun x => (x - meanOf l) ^ 2)).sum / l.length)

/-- `update_performance_metrics()` (lines 200-221) as a function from the
previous metrics and the current `trade_history` contents to the new metrics.
Note the source quirks kept here: the early return on an empty ledger, the
`sharpe_ratio` entry left at its previous value when `len(pnls) <= 1`, and
`max_drawdown` always recomputed. -/
noncomputable def update_performance_metrics (prev : PerformanceMetrics)
    (trade_history : List (Trade ℝ)) : PerformanceMetrics :=
  if trade_history = [] then prev
  else
    let pnls := trade_history.map Trade.pnl
    let wins := pnls.filter (fun p => decide (0 < p))
    let losses := pnls.filter (fun p => decide (p < 0))
    let base : PerformanceMetrics :=
      { prev with
        total_trades := pnls.length
        winning_trades := wins.length
        losing_trades := losses.length
        total_pnl := pnls.sum
        win_rate := if pnls ≠ [] then (wins.length : ℝ) / (pnls.length : ℝ) * 100 else 0
        avg_win := if wins ≠ [] then wins.sum / (wins.length : ℝ) else 0
        avg_loss := if losses ≠ [] then losses.sum / (losses.length : ℝ) else 0
        profit_factor :=
          if losses ≠ [] ∧ losses.sum ≠ 0 then wins.sum / |losses.sum| else 0 }
    let base2 : PerformanceMetrics :=
      if 1 < pnls.length then
        { base with
          sharpe :=
            if 0 < stdOf pnls then meanOf pnls / stdOf pnls * Real.sqrt (pnls.length : ℝ)
            else 0 }
      else base
    { base2 with max_drawdown := maxDrawdown pnls }

/-! ## Engine state and `record_trade` -/

/-- The mutable engine state shared by the cycle: `active_trades` (a dict,
modelled as a total lookup returning `none` for an absent key),
`trade_history` and `performance_metrics` (lines 19-23).  `latest_signals` is
the published snapshot map, which `update_all_signals` returns rather than
stores. -/
structure EngineState where
  active_trades : String → Option (Position ℝ)
  trade_history : List (Trade ℝ)
  performance_metrics : PerformanceMetrics

/-- The initial engine state: empty dicts, empty deque, zero metrics. -/
def initialState : EngineState :=
  ⟨fun _ => none, [], initialMetrics⟩

/-- `record_trade` (lines 194-198): append to the bounded deque, then
recompute the metrics from the new ledger contents. -/
noncomputable def record_trade (st : EngineState) (t : Trade ℝ) : EngineState :=
  let h := dequePush st.trade_history t
  { st with trade_history := h
            performance_metrics := update_performance_metrics st.performance_metrics h }

/-- `bollinger_signal(symbol, prices_df, upper_band, lower_band, sma)` at the
cycle level: extract the two-bar window (lines 78-82), run the pure step, and
apply its effects to the engine state (the source's in-place mutations of
`active_trades` and the `record_trade` calls). -/
noncomputable def bollinger_signal (symbol : String) (closes : List ℝ)
    (upper_band lower_band sma : ℕ → ℝ) (st : EngineState) :
    SignalKind × StatusMsg ℝ × Option (PosInfo ℝ) × EngineState :=
  let n := closes.length
  let inp : BarInputs ℝ :=
    { current_price := closes.getD (n - 1) 0
      previous_price := closes.getD (n - 2) 0
      current_upper := upper_band (n - 1)
      current_lower := lower_band (n - 1)
      current_sma := sma (n - 1)
      previous_upper := upper_band (n - 2)
      previous_lower := lower_band (n - 2) }
  let r := bollinger_signal_step symbol (st.active_trades symbol) inp
  let st1 := r.emitted.foldl record_trade st
  let st2 : EngineState :=
    { st1 with active_trades := Function.update st1.active_trades symbol r.newPos }
  (r.signal, r.reason, r.posInfo, st2)

/-! ## Evaluation cycle (`fetch_asset_data`, `update_all_signals`) -/

/-- One published per-asset snapshot dict. -/
structure Snapshot where
  symbol : String
  price : ℝ
  change : ℝ
  signal : SignalKind
  reason : StatusMsg ℝ
  rsi : ℝ
  atr : ℝ
  position : Option (PosInfo ℝ)

/-- The placeholder snapshot of the error paths (lines 227-228 / 234-235):
zeroed numeric fields, `ERROR` signal, the given diagnostic reason. -/
def errorSnapshot (symbol : String) (reason : StatusMsg ℝ) : Snapshot :=
  { symbol := String.replace symbol "USDT" "", price := 0, change := 0,
    signal := SignalKind.ERROR, reason := reason, rsi := 0, atr := 0, position := none }

/-- `fetch_asset_data(symbol, interval)` (lines 223-251), with the network
call `fetch_binance_klines` replaced by its result `df` (the external
market-data collaborator), and the engine state passed explicitly.  Returns
the snapshot and the state after the call.  The `pd.isna` fallbacks for the
last RSI/ATR values are never taken at the history lengths admitted here
(≥ 50 bars) and are not modelled. -/
noncomputable def fetch_asset_data (symbol : String) (df : Option (List Candle))
    (st : EngineState) : Snapshot × EngineState :=
  match df with
  | none => (errorSnapshot symbol StatusMsg.noData, st)
  | some df =>
    if df.length < 50 then (errorSnapshot symbol StatusMsg.noData, st)
    else
      let close_prices := df.map Candle.close
      match calculate_bollinger_bands close_prices 20 1 with
      | none => (errorSnapshot symbol StatusMsg.calcError, st)
      | some (upper_band, sma_line, lower_band) =>
        let r := bollinger_signal symbol close_prices upper_band lower_band sma_line st
        let n := close_prices.length
        let current_price := close_prices.getD (n - 1) 0
        let change_pct :=
          (current_price - close_prices.getD (n - 2) 0) / close_prices.getD (n - 2) 0 * 100
        ({ symbol := String.replace symbol "USDT" "", price := pyRoundTo 8 current_price,
           change := pyRoundTo 2 change_pct, signal := r.1, reason := r.2.1,
           rsi := pyRoundTo 2 (rsiLast close_prices 14), atr := pyRoundTo 4 (atrLast df 14),
           position := r.2.2.1 }, r.2.2.2)

/-- `update_all_signals(interval)` (lines 253-262): evaluate every asset in
order, threading the engine state; returns the snapshot map (an association
list in evaluation order, as the source's insertion-ordered dict) and the
final state.  The market-data collaborator is the function `fetch`. -/
noncomputable def update_all_signals (assets : List String)
    (fetch : String → Option (List Candle)) (st : EngineState) :
    List (String × Snapshot) × EngineState :=
  match assets with
  | [] => ([], st)
  | a :: rest =>
    let r := fetch_asset_data a (fetch a) st
    let rr := update_all_signals rest fetch r.2
    ((a, r.1) :: rr.1, rr.2)

/-! ## Derived quantities used to state the claims -/

section ClaimDefs

variable {α : Type} [LinearOrderedField α]

/-- The gross P&L percent of a closed trade as computed at every close site
(lines 104 / 127): `(exit-entry)/entry*100` for a LONG, the mirror for a
SHORT. -/
def gross_pnl (d : Direction) (entry_price exit_price : α) : α :=
  match d with
  | Direction.BUY => (exit_price - entry_price) / entry_price * 100
  | Direction.SELL => (entry_price - exit_price) / entry_price * 100

end ClaimDefs

/-! ## Concrete runs and inputs used by counterexamples and witnesses -/

/-- Two-bar window opening a LONG at 100: previous close 99 under the previous
upper band 99.5, current close 100 above the current upper band 99.8. -/
def cexInpOpen : BarInputs ℚ := ⟨100, 99, 998 / 10, 0, 200, 995 / 10, 0⟩

/-- Two-bar window with price at 105 and bands far away: on the open LONG the
trailing regime engages (P&L 5% ≥ 1%). -/
def cexInpRise : BarInputs ℚ := ⟨105, 100, 300, 0, 200, 300, 0⟩

/-- Two-bar window with price back at 100.5: on the open LONG the unrealized
P&L is 0.5% < 1%, so the stop-management step resets the stop to
`entry_price * 0.98`. -/
def cexInpFall : BarInputs ℚ := ⟨201 / 2, 105, 300, 0, 200, 300, 0⟩

/-- The evaluation that opens the counterexample's LONG position. -/
def cexStep0 : StepResult ℚ :=
  bollinger_signal_step "BTCUSDT" none cexInpOpen

/-- The second evaluation of the counterexample run (trailing regime). -/
def cexStep1 : StepResult ℚ :=
  bollinger_signal_step "BTCUSDT" cexStep0.newPos cexInpRise

/-- The third evaluation of the counterexample run (P&L back below 1%). -/
def cexStep2 : StepResult ℚ :=
  bollinger_signal_step "BTCUSDT" cexStep1.newPos cexInpFall

/-- A trade ledger whose P&L column is `[+2, +1, +0.5, -1, -0.5]` (the worked
example of the performance-summary claim); the other fields are arbitrary. -/
noncomputable def exampleLedger : List (Trade ℝ) :=
  [⟨"BTCUSDT", 100, 102, Direction.BUY, 2, ExitReason.SMA⟩,
   ⟨"ETHUSDT", 100, 101, Direction.BUY, 1, ExitReason.SMA⟩,
   ⟨"BNBUSDT", 100, 100.5, Direction.BUY, 1 / 2, ExitReason.SMA⟩,
   ⟨"XRPUSDT", 100, 101, Direction.SELL, -1, ExitReason.Stop⟩,
   ⟨"SOLUSDT", 100, 100.5, Direction.SELL, -1 / 2, ExitReason.Stop⟩]

/-- A 30-bar candle history: shorter than the 50-bar minimum. -/
noncomputable def shortHistory : List Candle :=
  List.replicate 30 ⟨100, 101, 99, 100, 1⟩

/-- A market-data collaborator returning the 30-bar history for every asset. -/
noncomputable def shortFetch : String → Option (List Candle) :=
  fun _ => some shortHistory

/-! ## Theorems -/

set_option maxRecDepth 4000 in
theorem dequePush_drop {β : Type} (ts : List β) (t : β) :
    dequePush (ts.drop (ts.length - 200)) t = (ts ++ [t]).drop (ts.length + 1 - 200) := by
  simp only [dequePush, List.length_append, List.length_drop, List.length_cons,
    List.length_nil]
  rcases le_or_lt ts.length 200 with h | h
  · have h1 : ts.length - 200 = 0 := by omega
    rw [h1, List.drop_zero]
    congr 1
  · have h1 : ts.length - (ts.length - 200) + (0 + 1) - 200 = 1 := by omega
    rw [h1, List.drop_append_of_le_length (by rw [List.length_drop]; omega),
      List.drop_drop, List.drop_append_of_le_length (by omega)]
    congr 2
    omega

set_option maxRecDepth 4000 in
theorem foldl_dequePush {β : Type} (ts : List β) :
    List.foldl dequePush ([] : List β) ts = ts.drop (ts.length - 200) := by
  induction ts using List.reverseRecOn with
  | nil => simp
  | append_singleton ts t ih =>
    rw [List.foldl_append, List.foldl_cons, List.foldl_nil, ih, dequePush_drop]
    congr 1
    simp

set_option maxRecDepth 4000 in
/-- C6: the trade ledger never holds more than 200 trades; for every sequence
of appends its contents are the most recent `min(200, total appended)` trades
in chronological order, and an append at capacity 200 evicts exactly the
oldest entry, preserving the order of the remaining 199. -/
theorem C6_ledger_fifo_capacity {β : Type} (ts : List β) :
    List.foldl dequePush ([] : List β) ts = ts.drop (ts.length - 200) ∧
    (List.foldl dequePush ([] : List β) ts).length ≤ 200 ∧
    ∀ (h : List β) (t : β), h.length = 200 → dequePush h t = h.tail ++ [t] := by
  refine ⟨foldl_dequePush ts, ?_, ?_⟩
  · rw [foldl_dequePush, List.length_drop]
    omega
  · intro h t hlen
    simp only [dequePush, List.length_append, hlen, List.length_cons, List.length_nil]
    have h1 : 200 + (0 + 1) - 200 = 1 := by omega
    rw [h1, List.drop_append_of_le_length (by omega), List.drop_one]

set_option maxRecDepth 4000 in
/-- Witness for C6 at a concrete 201-append sequence and a concrete
at-capacity ledger. -/
theorem C6_ledger_fifo_capacity_witness :
    (List.foldl dequePush ([] : List ℕ) (List.range 201) =
      (List.range 201).drop ((List.range 201).length - 200)) ∧
    dequePush (List.replicate 200 (0 : ℕ)) 7 = (List.replicate 200 (0 : ℕ)).tail ++ [7] :=
  ⟨(C6_ledger_fifo_capacity (List.range 201)).1,
   (C6_ledger_fifo_capacity ([] : List ℕ)).2.2 (List.replicate 200 0) 7 (by simp)⟩

/-- C8: for a price series with at least 20 points, at every index past the
warm-up window the bands computed by `calculate_bollinger_bands` (with the
call-site window 20 and width multiplier 1) satisfy
`lowerBand ≤ movingAverage ≤ upperBand`, the bands being the moving average
plus/minus the rolling standard deviation times the multiplier. -/
theorem C8_band_ordering (prices : List ℝ) (h20 : 20 ≤ prices.length) (i : ℕ)
    (_hw : 19 ≤ i) (_hi : i < prices.length) :
    (calculate_bollinger_bands prices 20 1).isSome ∧
    ∀ u m l, calculate_bollinger_bands prices 20 1 = some (u, m, l) →
      m i ≤ u i ∧ l i ≤ m i := by
  have hnot : ¬ prices.length < 20 := by omega
  constructor
  · simp [calculate_bollinger_bands, hnot]
  · intro u m l heq
    rw [calculate_bollinger_bands, if_neg hnot, Option.some_inj, Prod.mk.injEq,
      Prod.mk.injEq] at heq
    obtain ⟨hu, hm, hl⟩ := heq
    subst hu
    subst hm
    subst hl
    have hs : 0 ≤ rollingStdDev prices 20 i := Real.sqrt_nonneg _
    constructor
    · simp only []
      linarith
    · simp only []
      linarith

/-- Witness for C8 on a concrete constant 20-point series at index 19. -/
theorem C8_band_ordering_witness :
    (calculate_bollinger_bands (List.replicate 20 (1 : ℝ)) 20 1).isSome ∧
    ∀ u m l, calculate_bollinger_bands (List.replicate 20 (1 : ℝ)) 20 1 = some (u, m, l) →
      m 19 ≤ u 19 ∧ l 19 ≤ m 19 :=
  C8_band_ordering (List.replicate 20 (1 : ℝ)) (by simp) 19 (by omega) (by simp)

/-- C9: `new_buy_signal` holds exactly when the previous close is at or below
the previous upper band and the current close is above the current upper band;
`new_sell_signal` is the mirror at the lower band; and the pair is a
deterministic function of the last two closes and last two band values —
replaying an identical two-bar window yields an identical pair. -/
theorem C9_breakout_signals :
    (∀ pc pu c cu : ℚ, new_buy_signal pc pu c cu ↔ pc ≤ pu ∧ c > cu) ∧
    (∀ pc pl c cl : ℚ, new_sell_signal pc pl c cl ↔ pc ≥ pl ∧ c < cl) ∧
    (∀ i1 i2 : BarInputs ℚ,
      i1.previous_price = i2.previous_price → i1.current_price = i2.current_price →
      i1.previous_upper = i2.previous_upper → i1.current_upper = i2.current_upper →
      i1.previous_lower = i2.previous_lower → i1.current_lower = i2.current_lower →
      ((new_buy_signal i1.previous_price i1.previous_upper i1.current_price i1.current_upper ↔
          new_buy_signal i2.previous_price i2.previous_upper i2.current_price
            i2.current_upper) ∧
        (new_sell_signal i1.previous_price i1.previous_lower i1.current_price
            i1.current_lower ↔
          new_sell_signal i2.previous_price i2.previous_lower i2.current_price
            i2.current_lower))) := by
  refine ⟨fun _ _ _ _ => Iff.rfl, fun _ _ _ _ => Iff.rfl, ?_⟩
  intro i1 i2 h1 h2 h3 h4 h5 h6
  rw [h1, h2, h3, h4, h5, h6]
  exact ⟨Iff.rfl, Iff.rfl⟩

/-- Witness for C9 at the concrete two-bar window of `cexInpOpen`. -/
theorem C9_breakout_signals_witness :
    (new_buy_signal (99 : ℚ) (995 / 10) 100 (998 / 10) ↔
      (99 : ℚ) ≤ 995 / 10 ∧ (100 : ℚ) > 998 / 10) ∧
    ((new_buy_signal cexInpOpen.previous_price cexInpOpen.previous_upper
        cexInpOpen.current_price cexInpOpen.current_upper ↔
      new_buy_signal cexInpOpen.previous_price cexInpOpen.previous_upper
        cexInpOpen.current_price cexInpOpen.current_upper) ∧
     (new_sell_signal cexInpOpen.previous_price cexInpOpen.previous_lower
        cexInpOpen.current_price cexInpOpen.current_lower ↔
      new_sell_signal cexInpOpen.previous_price cexInpOpen.previous_lower
        cexInpOpen.current_price cexInpOpen.current_lower)) :=
  ⟨C9_breakout_signals.1 99 (995 / 10) 100 (998 / 10),
   C9_breakout_signals.2.2 cexInpOpen cexInpOpen rfl rfl rfl rfl rfl rfl⟩

theorem after_stop_emitted_spec (symbol : String) (p : Position ℚ) (pnl : ℚ)
    (inp : BarInputs ℚ) :
    ∀ t ∈ (after_stop_section symbol p pnl inp).emitted,
      t.pnl = pnl - (TRADING_FEE : ℚ) * 200 ∧ t.exit_price = inp.current_price ∧
      t.symbol = symbol ∧ t.entry_price = p.entry_price ∧ t.signal_type = p.signal := by
  unfold after_stop_section
  split_ifs <;> simp

theorem after_stop_len (symbol : String) (p : Position ℚ) (pnl : ℚ) (inp : BarInputs ℚ) :
    (after_stop_section symbol p pnl inp).emitted.length ≤ 1 := by
  unfold after_stop_section
  split_ifs <;> simp

theorem after_stop_newPos_none (symbol : String) (p : Position ℚ) (pnl : ℚ)
    (inp : BarInputs ℚ) :
    (after_stop_section symbol p pnl inp).newPos = none →
    (after_stop_section symbol p pnl inp).emitted.length = 1 := by
  unfold after_stop_section
  split_ifs <;> simp

theorem after_stop_emitted_nil (symbol : String) (p : Position ℚ) (pnl : ℚ)
    (inp : BarInputs ℚ) :
    (after_stop_section symbol p pnl inp).emitted = [] →
    (after_stop_section symbol p pnl inp).newPos.isSome := by
  unfold after_stop_section
  split_ifs <;> simp

theorem fee_split (x : ℚ) :
    x - (TRADING_FEE : ℚ) * 200 = x - (TRADING_FEE : ℚ) * 2 * 100 := by
  norm_num [TRADING_FEE]

/-- C3: every close (any exit reason) emits exactly one trade whose
`net_pnl_percent` is the gross P&L percent minus `feeRate * 2 * 100` exactly;
with `TRADING_FEE = 0.001` that deduction is exactly 0.2 percentage points.
Also: at most one trade is emitted per evaluation, a flat evaluation emits
none, an evaluation that ends flat from an open position emits exactly one,
and an evaluation that emits none keeps the position open. -/
theorem C3_close_fee_exact (symbol : String) (pos : Option (Position ℚ))
    (inp : BarInputs ℚ) :
    ((TRADING_FEE : ℚ) * 2 * 100 = 1 / 5) ∧
    (∀ t ∈ (bollinger_signal_step symbol pos inp).emitted,
      t.pnl =
        gross_pnl t.signal_type t.entry_price t.exit_price - (TRADING_FEE : ℚ) * 2 * 100 ∧
      t.exit_price = inp.current_price ∧ t.symbol = symbol) ∧
    (bollinger_signal_step symbol pos inp).emitted.length ≤ 1 ∧
    (pos = none → (bollinger_signal_step symbol pos inp).emitted = []) ∧
    (∀ p, pos = some p → (bollinger_signal_step symbol pos inp).newPos = none →
      (bollinger_signal_step symbol pos inp).emitted.length = 1) ∧
    (∀ p, pos = some p → (bollinger_signal_step symbol pos inp).emitted = [] →
      (bollinger_signal_step symbol pos inp).newPos.isSome) := by
  refine ⟨by norm_num [TRADING_FEE], ?_, ?_, ?_, ?_, ?_⟩
  · rcases pos with _ | ⟨e, d, hi0, lo0, sl, st⟩
    · simp only [bollinger_signal_step]
      split_ifs <;> simp
    · cases d <;>
        (simp only [bollinger_signal_step]
         split_ifs with h1 h2 h3
         · simp [gross_pnl, ← fee_split]
         · intro t ht
           obtain ⟨hp, hx, hsym, he, hsig⟩ := after_stop_emitted_spec symbol _ _ inp t ht
           simp only at he hsig
           refine ⟨?_, hx, hsym⟩
           rw [hp, he, hsig, hx, fee_split, gross_pnl]
         · simp [gross_pnl, ← fee_split]
         · intro t ht
           obtain ⟨hp, hx, hsym, he, hsig⟩ := after_stop_emitted_spec symbol _ _ inp t ht
           simp only at he hsig
           refine ⟨?_, hx, hsym⟩
           rw [hp, he, hsig, hx, fee_split, gross_pnl])
  · rcases pos with _ | ⟨e, d, hi0, lo0, sl, st⟩
    · simp only [bollinger_signal_step]
      split_ifs <;> simp
    · cases d <;>
        (simp only [bollinger_signal_step]
         split_ifs with h1 h2 h3
         · simp
         · exact after_stop_len symbol _ _ inp
         · simp
         · exact after_stop_len symbol _ _ inp)
  · rintro rfl
    simp only [bollinger_signal_step]
    split_ifs <;> simp
  · rintro p rfl hnone
    revert hnone
    obtain ⟨e, d, hi0, lo0, sl, st⟩ := p
    cases d <;>
      (simp only [bollinger_signal_step]
       split_ifs with h1 h2 h3
       · simp
       · exact after_stop_newPos_none symbol _ _ inp
       · simp
       · exact after_stop_newPos_none symbol _ _ inp)
  · rintro p rfl hnil
    revert hnil
    obtain ⟨e, d, hi0, lo0, sl, st⟩ := p
    cases d <;>
      (simp only [bollinger_signal_step]
       split_ifs with h1 h2 h3
       · simp
       · exact after_stop_emitted_nil symbol _ _ inp
       · simp
       · exact after_stop_emitted_nil symbol _ _ inp)

/-- Witness for C3 at a concrete stop-out evaluation of an open LONG. -/
theorem C3_close_fee_exact_witness :
    ((TRADING_FEE : ℚ) * 2 * 100 = 1 / 5) ∧
    (∀ t ∈ (bollinger_signal_step "BTCUSDT"
        (some ⟨100, Direction.BUY, 100, 100, 98, StopType.Initial⟩)
        (⟨97, 100, 1000, 0, 200, 1000, 0⟩ : BarInputs ℚ)).emitted,
      t.pnl =
        gross_pnl t.signal_type t.entry_price t.exit_price - (TRADING_FEE : ℚ) * 2 * 100 ∧
      t.exit_price = (⟨97, 100, 1000, 0, 200, 1000, 0⟩ : BarInputs ℚ).current_price ∧
      t.symbol = "BTCUSDT") ∧
    (bollinger_signal_step "BTCUSDT"
        (some ⟨100, Direction.BUY, 100, 100, 98, StopType.Initial⟩)
        (⟨97, 100, 1000, 0, 200, 1000, 0⟩ : BarInputs ℚ)).emitted.length ≤ 1 ∧
    ((some (⟨100, Direction.BUY, 100, 100, 98, StopType.Initial⟩ : Position ℚ)) = none →
      (bollinger_signal_step "BTCUSDT"
        (some ⟨100, Direction.BUY, 100, 100, 98, StopType.Initial⟩)
        (⟨97, 100, 1000, 0, 200, 1000, 0⟩ : BarInputs ℚ)).emitted = []) ∧
    (∀ p, (some (⟨100, Direction.BUY, 100, 100, 98, StopType.Initial⟩ : Position ℚ)) = some p →
      (bollinger_signal_step "BTCUSDT"
        (some ⟨100, Direction.BUY, 100, 100, 98, StopType.Initial⟩)
        (⟨97, 100, 1000, 0, 200, 1000, 0⟩ : BarInputs ℚ)).newPos = none →
      (bollinger_signal_step "BTCUSDT"
        (some ⟨100, Direction.BUY, 100, 100, 98, StopType.Initial⟩)
        (⟨97, 100, 1000, 0, 200, 1000, 0⟩ : BarInputs ℚ)).emitted.length = 1) ∧
    (∀ p, (some (⟨100, Direction.BUY, 100, 100, 98, StopType.Initial⟩ : Position ℚ)) = some p →
      (bollinger_signal_step "BTCUSDT"
        (some ⟨100, Direction.BUY, 100, 100, 98, StopType.Initial⟩)
        (⟨97, 100, 1000, 0, 200, 1000, 0⟩ : BarInputs ℚ)).emitted = [] →
      (bollinger_signal_step "BTCUSDT"
        (some ⟨100, Direction.BUY, 100, 100, 98, StopType.Initial⟩)
        (⟨97, 100, 1000, 0, 200, 1000, 0⟩ : BarInputs ℚ)).newPos.isSome) :=
  C3_close_fee_exact "BTCUSDT" (some ⟨100, Direction.BUY, 100, 100, 98, StopType.Initial⟩)
    ⟨97, 100, 1000, 0, 200, 1000, 0⟩

/-- C2: for every evaluation of an open position satisfying the stop
invariant of the reachable states, if the current price breaches the freshly
updated active stop (≤ for LONG, ≥ for SHORT, the stop being the tighter of
the previous value and the trailing candidate when unrealized P&L ≥ 1%, the
initial entry-based stop otherwise), the position closes and the emitted
trade's exit reason is `Trailing` when the active stop type is `Trailing`
(P&L ≥ 1%) and `Stop` when it is `Initial`. -/
theorem C2_stop_breach_closes (symbol : String) (p : Position ℚ) (inp : BarInputs ℚ)
    (hinv : stop_invariant p) (hbr : stop_breached p inp.current_price) :
    (bollinger_signal_step symbol (some p) inp).newPos = none ∧
    ∃ t, (bollinger_signal_step symbol (some p) inp).emitted = [t] ∧
      t.reason = (if 1 ≤ unrealized_pnl p inp.current_price then ExitReason.Trailing
        else ExitReason.Stop) ∧
      t.signal_type = p.signal ∧ t.exit_price = inp.current_price ∧
      t.entry_price = p.entry_price := by
  obtain ⟨e, d, hi0, lo0, sl, st⟩ := p
  cases d
  · simp only [stop_invariant, stop_breached, updated_stop, unrealized_pnl] at hinv hbr
    simp only [unrealized_pnl, bollinger_signal_step]
    split_ifs with h1 h2 h3
    · exact ⟨rfl, _, rfl, rfl, rfl, rfl, rfl⟩
    · rw [if_pos h1] at hbr
      have hmax : max sl (max hi0 inp.current_price * (98 / 100)) =
          max hi0 inp.current_price * (98 / 100) :=
        max_eq_right
          (le_trans hinv (mul_le_mul_of_nonneg_right (le_max_left _ _) (by norm_num)))
      rw [hmax] at hbr
      exact absurd hbr h2
    · exact ⟨rfl, _, rfl, rfl, rfl, rfl, rfl⟩
    · rw [if_neg h1] at hbr
      exact absurd hbr h3
  · simp only [stop_invariant, stop_breached, updated_stop, unrealized_pnl] at hinv hbr
    simp only [unrealized_pnl, bollinger_signal_step]
    split_ifs with h1 h2 h3
    · exact ⟨rfl, _, rfl, rfl, rfl, rfl, rfl⟩
    · rw [if_pos h1] at hbr
      have hmin : min sl (min lo0 inp.current_price * (102 / 100)) =
          min lo0 inp.current_price * (102 / 100) :=
        min_eq_right
          (le_trans (mul_le_mul_of_nonneg_right (min_le_left _ _) (by norm_num)) hinv)
      rw [hmin] at hbr
      exact absurd hbr h2
    · exact ⟨rfl, _, rfl, rfl, rfl, rfl, rfl⟩
    · rw [if_neg h1] at hbr
      exact absurd hbr h3

/-- Witness for C2: a LONG at entry 100 with its initial stop 98, evaluated
at price 97 (an initial-stop breach). -/
theorem C2_stop_breach_closes_witness :
    (bollinger_signal_step "BTCUSDT"
      (some ⟨100, Direction.BUY, 100, 100, 98, StopType.Initial⟩)
      (⟨97, 100, 1000, 0, 200, 1000, 0⟩ : BarInputs ℚ)).newPos = none ∧
    ∃ t, (bollinger_signal_step "BTCUSDT"
        (some ⟨100, Direction.BUY, 100, 100, 98, StopType.Initial⟩)
        (⟨97, 100, 1000, 0, 200, 1000, 0⟩ : BarInputs ℚ)).emitted = [t] ∧
      t.reason = (if 1 ≤ unrealized_pnl
          (⟨100, Direction.BUY, 100, 100, 98, StopType.Initial⟩ : Position ℚ) 97 then
          ExitReason.Trailing else ExitReason.Stop) ∧
      t.signal_type =
        (⟨100, Direction.BUY, 100, 100, 98, StopType.Initial⟩ : Position ℚ).signal ∧
      t.exit_price = (⟨97, 100, 1000, 0, 200, 1000, 0⟩ : BarInputs ℚ).current_price ∧
      t.entry_price =
        (⟨100, Direction.BUY, 100, 100, 98, StopType.Initial⟩ : Position ℚ).entry_price :=
  C2_stop_breach_closes "BTCUSDT" ⟨100, Direction.BUY, 100, 100, 98, StopType.Initial⟩
    ⟨97, 100, 1000, 0, 200, 1000, 0⟩
    (by norm_num [stop_invariant])
    (by norm_num [stop_breached, updated_stop, unrealized_pnl])

theorem after_stop_reversal (symbol : String) (q : Position ℚ) (pnl : ℚ) (inp : BarInputs ℚ)
    (hsma : ¬ at_sma_of inp) (hrev : reversal_condition q inp) :
    (after_stop_section symbol q pnl inp).emitted =
      [⟨symbol, q.entry_price, inp.current_price, q.signal,
        pnl - (TRADING_FEE : ℚ) * 200, ExitReason.Reversal⟩] ∧
    (after_stop_section symbol q pnl inp).newPos = some
      ⟨inp.current_price,
        if new_sell_signal inp.previous_price inp.previous_lower inp.current_price
          inp.current_lower then Direction.SELL else Direction.BUY,
        inp.current_price, inp.current_price,
        if (if new_sell_signal inp.previous_price inp.previous_lower inp.current_price
            inp.current_lower then Direction.SELL else Direction.BUY) = Direction.BUY then
          inp.current_price * (98 / 100)
        else inp.current_price * (102 / 100),
        StopType.Initial⟩ := by
  unfold after_stop_section
  rw [if_neg hsma, if_pos hrev]
  exact ⟨rfl, rfl⟩

theorem step_emit_with_open_is_reversal (symbol : String) (s : Option (Position ℚ))
    (inp2 : BarInputs ℚ) :
    ((bollinger_signal_step symbol s inp2).newPos).isSome →
    ∀ t ∈ (bollinger_signal_step symbol s inp2).emitted, t.reason = ExitReason.Reversal := by
  rcases s with _ | ⟨e, d, hi0, lo0, sl, st⟩
  · simp only [bollinger_signal_step]
    split_ifs <;> simp
  · cases d <;>
      (simp only [bollinger_signal_step]
       split_ifs with h1 h2 h3
       · simp
       · unfold after_stop_section
         split_ifs <;> simp
       · simp
       · unfold after_stop_section
         split_ifs <;> simp)

/-- C4: when an open position survives the stop check, is not closed by the
mean-revert exit, and a breakout signal opposite to its direction fires (with
the current bands ordered `lower <= upper`, as `calculate_bollinger_bands`
always produces), the position closes with exit reason `Reversal` and a new
position opens in the same evaluation, in the opposite direction, at the
current price, with an `Initial` stop of `price*0.98` (LONG) or `price*1.02`
(SHORT); and no other evaluation path both emits a close and leaves a
position open in the same evaluation. -/
theorem C4_reversal_close_and_reopen (symbol : String) (p : Position ℚ) (inp : BarInputs ℚ)
    (hbands : inp.current_lower ≤ inp.current_upper)
    (hsurv : survives_stop_check p inp.current_price)
    (hsma : ¬ at_sma_of inp)
    (hrev : reversal_condition p inp) :
    (∃ t, (bollinger_signal_step symbol (some p) inp).emitted = [t] ∧
      t.reason = ExitReason.Reversal ∧ t.signal_type = p.signal ∧
      t.entry_price = p.entry_price ∧ t.exit_price = inp.current_price) ∧
    (p.signal = Direction.BUY →
      (bollinger_signal_step symbol (some p) inp).newPos =
        some ⟨inp.current_price, Direction.SELL, inp.current_price, inp.current_price,
          inp.current_price * (102 / 100), StopType.Initial⟩) ∧
    (p.signal = Direction.SELL →
      (bollinger_signal_step symbol (some p) inp).newPos =
        some ⟨inp.current_price, Direction.BUY, inp.current_price, inp.current_price,
          inp.current_price * (98 / 100), StopType.Initial⟩) ∧
    (∀ (s : Option (Position ℚ)) (inp2 : BarInputs ℚ),
      ((bollinger_signal_step symbol s inp2).newPos).isSome →
      ∀ t ∈ (bollinger_signal_step symbol s inp2).emitted,
        t.reason = ExitReason.Reversal) := by
  obtain ⟨e, d, hi0, lo0, sl, st⟩ := p
  cases d
  · -- LONG position: the opposite breakout is a sell signal
    have hns : new_sell_signal inp.previous_price inp.previous_lower inp.current_price
        inp.current_lower := by
      simp only [reversal_condition] at hrev
      rcases hrev with ⟨-, h⟩ | ⟨h, -⟩
      · exact h
      · exact absurd h (by simp)
    simp only [survives_stop_check, unrealized_pnl] at hsurv
    refine ⟨?_, ?_, ?_, step_emit_with_open_is_reversal symbol⟩
    · simp only [bollinger_signal_step]
      rcases hsurv with ⟨ha, hb⟩ | ⟨ha, hb⟩
      · rw [if_pos ha, if_neg (not_le.mpr hb),
          (after_stop_reversal symbol
            ⟨e, Direction.BUY, max hi0 inp.current_price, min lo0 inp.current_price,
              max sl (max hi0 inp.current_price * (98 / 100)), StopType.Trailing⟩
            ((inp.current_price - e) / e * 100) inp hsma (Or.inl ⟨rfl, hns⟩)).1]
        exact ⟨_, rfl, rfl, rfl, rfl, rfl⟩
      · rw [if_neg (not_le.mpr ha), if_neg (not_le.mpr hb),
          (after_stop_reversal symbol
            ⟨e, Direction.BUY, max hi0 inp.current_price, min lo0 inp.current_price,
              e * (98 / 100), StopType.Initial⟩
            ((inp.current_price - e) / e * 100) inp hsma (Or.inl ⟨rfl, hns⟩)).1]
        exact ⟨_, rfl, rfl, rfl, rfl, rfl⟩
    · rintro -
      simp only [bollinger_signal_step]
      rcases hsurv with ⟨ha, hb⟩ | ⟨ha, hb⟩
      · rw [if_pos ha, if_neg (not_le.mpr hb),
          (after_stop_reversal symbol
            ⟨e, Direction.BUY, max hi0 inp.current_price, min lo0 inp.current_price,
              max sl (max hi0 inp.current_price * (98 / 100)), StopType.Trailing⟩
            ((inp.current_price - e) / e * 100) inp hsma (Or.inl ⟨rfl, hns⟩)).2,
          if_pos hns]
        simp
      · rw [if_neg (not_le.mpr ha), if_neg (not_le.mpr hb),
          (after_stop_reversal symbol
            ⟨e, Direction.BUY, max hi0 inp.current_price, min lo0 inp.current_price,
              e * (98 / 100), StopType.Initial⟩
            ((inp.current_price - e) / e * 100) inp hsma (Or.inl ⟨rfl, hns⟩)).2,
          if_pos hns]
        simp
    · intro h
      exact absurd h (by simp)
  · -- SHORT position: the opposite breakout is a buy signal
    have hnb : new_buy_signal inp.previous_price inp.previous_upper inp.current_price
        inp.current_upper := by
      simp only [reversal_condition] at hrev
      rcases hrev with ⟨h, -⟩ | ⟨-, h⟩
      · exact absurd h (by simp)
      · exact h
    have hnns : ¬ new_sell_signal inp.previous_price inp.previous_lower inp.current_price
        inp.current_lower := by
      rintro ⟨-, hlt⟩
      exact absurd (lt_trans hlt (lt_of_le_of_lt hbands hnb.2)) (lt_irrefl _)
    simp only [survives_stop_check, unrealized_pnl] at hsurv
    refine ⟨?_, ?_, ?_, step_emit_with_open_is_reversal symbol⟩
    · simp only [bollinger_signal_step]
      rcases hsurv with ⟨ha, hb⟩ | ⟨ha, hb⟩
      · rw [if_pos ha, if_neg (not_le.mpr hb),
          (after_stop_reversal symbol
            ⟨e, Direction.SELL, max hi0 inp.current_price, min lo0 inp.current_price,
              min sl (min lo0 inp.current_price * (102 / 100)), StopType.Trailing⟩
            ((e - inp.current_price) / e * 100) inp hsma (Or.inr ⟨rfl, hnb⟩)).1]
        exact ⟨_, rfl, rfl, rfl, rfl, rfl⟩
      · rw [if_neg (not_le.mpr ha), if_neg (not_le.mpr hb),
          (after_stop_reversal symbol
            ⟨e, Direction.SELL, max hi0 inp.current_price, min lo0 inp.current_price,
              e * (102 / 100), StopType.Initial⟩
            ((e - inp.current_price) / e * 100) inp hsma (Or.inr ⟨rfl, hnb⟩)).1]
        exact ⟨_, rfl, rfl, rfl, rfl, rfl⟩
    · intro h
      exact absurd h (by simp)
    · rintro -
      simp only [bollinger_signal_step]
      rcases hsurv with ⟨ha, hb⟩ | ⟨ha, hb⟩
      · rw [if_pos ha, if_neg (not_le.mpr hb),
          (after_stop_reversal symbol
            ⟨e, Direction.SELL, max hi0 inp.current_price, min lo0 inp.current_price,
              min sl (min lo0 inp.current_price * (102 / 100)), StopType.Trailing⟩
            ((e - inp.current_price) / e * 100) inp hsma (Or.inr ⟨rfl, hnb⟩)).2,
          if_neg hnns]
        simp
      · rw [if_neg (not_le.mpr ha), if_neg (not_le.mpr hb),
          (after_stop_reversal symbol
            ⟨e, Direction.SELL, max hi0 inp.current_price, min lo0 inp.current_price,
              e * (102 / 100), StopType.Initial⟩
            ((e - inp.current_price) / e * 100) inp hsma (Or.inr ⟨rfl, hnb⟩)).2,
          if_neg hnns]
        simp

/-- Witness for C4: an open LONG at 100 seeing a sell breakout at price 99.5
with the stop intact and the price away from the SMA. -/
theorem C4_reversal_close_and_reopen_witness :
    (∃ t, (bollinger_signal_step "BTCUSDT"
        (some ⟨100, Direction.BUY, 100, 100, 98, StopType.Initial⟩)
        (⟨199 / 2, 100, 1000, 996 / 10, 200, 1000, 100⟩ : BarInputs ℚ)).emitted = [t] ∧
      t.reason = ExitReason.Reversal ∧
      t.signal_type =
        (⟨100, Direction.BUY, 100, 100, 98, StopType.Initial⟩ : Position ℚ).signal ∧
      t.entry_price =
        (⟨100, Direction.BUY, 100, 100, 98, StopType.Initial⟩ : Position ℚ).entry_price ∧
      t.exit_price =
        (⟨199 / 2, 100, 1000, 996 / 10, 200, 1000, 100⟩ : BarInputs ℚ).current_price) ∧
    ((⟨100, Direction.BUY, 100, 100, 98, StopType.Initial⟩ : Position ℚ).signal =
        Direction.BUY →
      (bollinger_signal_step "BTCUSDT"
        (some ⟨100, Direction.BUY, 100, 100, 98, StopType.Initial⟩)
        (⟨199 / 2, 100, 1000, 996 / 10, 200, 1000, 100⟩ : BarInputs ℚ)).newPos =
        some ⟨(⟨199 / 2, 100, 1000, 996 / 10, 200, 1000, 100⟩ : BarInputs ℚ).current_price,
          Direction.SELL,
          (⟨199 / 2, 100, 1000, 996 / 10, 200, 1000, 100⟩ : BarInputs ℚ).current_price,
          (⟨199 / 2, 100, 1000, 996 / 10, 200, 1000, 100⟩ : BarInputs ℚ).current_price,
          (⟨199 / 2, 100, 1000, 996 / 10, 200, 1000, 100⟩ : BarInputs ℚ).current_price *
            (102 / 100), StopType.Initial⟩) ∧
    ((⟨100, Direction.BUY, 100, 100, 98, StopType.Initial⟩ : Position ℚ).signal =
        Direction.SELL →
      (bollinger_signal_step "BTCUSDT"
        (some ⟨100, Direction.BUY, 100, 100, 98, StopType.Initial⟩)
        (⟨199 / 2, 100, 1000, 996 / 10, 200, 1000, 100⟩ : BarInputs ℚ)).newPos =
        some ⟨(⟨199 / 2, 100, 1000, 996 / 10, 200, 1000, 100⟩ : BarInputs ℚ).current_price,
          Direction.BUY,
          (⟨199 / 2, 100, 1000, 996 / 10, 200, 1000, 100⟩ : BarInputs ℚ).current_price,
          (⟨199 / 2, 100, 1000, 996 / 10, 200, 1000, 100⟩ : BarInputs ℚ).current_price,
          (⟨199 / 2, 100, 1000, 996 / 10, 200, 1000, 100⟩ : BarInputs ℚ).current_price *
            (98 / 100), StopType.Initial⟩) ∧
    (∀ (s : Option (Position ℚ)) (inp2 : BarInputs ℚ),
      ((bollinger_signal_step "BTCUSDT" s inp2).newPos).isSome →
      ∀ t ∈ (bollinger_signal_step "BTCUSDT" s inp2).emitted,
        t.reason = ExitReason.Reversal) :=
  C4_reversal_close_and_reopen "BTCUSDT"
    ⟨100, Direction.BUY, 100, 100, 98, StopType.Initial⟩
    ⟨199 / 2, 100, 1000, 996 / 10, 200, 1000, 100⟩
    (by norm_num)
    (by norm_num [survives_stop_check, unrealized_pnl])
    (by norm_num [at_sma_of, abs_of_nonpos, abs_of_nonneg])
    (by norm_num [reversal_condition, new_sell_signal])

theorem after_stop_newPos_spec (symbol : String) (q0 : Position ℚ) (pnl : ℚ)
    (inp : BarInputs ℚ) :
    (after_stop_section symbol q0 pnl inp).newPos = none ∨
    ((after_stop_section symbol q0 pnl inp).newPos = some q0 ∧
      (after_stop_section symbol q0 pnl inp).emitted = []) ∨
    (∃ d', (after_stop_section symbol q0 pnl inp).newPos =
        some ⟨inp.current_price, d', inp.current_price, inp.current_price,
          if d' = Direction.BUY then inp.current_price * (98 / 100)
          else inp.current_price * (102 / 100), StopType.Initial⟩ ∧
      (after_stop_section symbol q0 pnl inp).emitted ≠ []) := by
  unfold after_stop_section
  split_ifs with hA hB
  · exact Or.inl rfl
  · exact Or.inr (Or.inr ⟨_, rfl, by simp⟩)
  · exact Or.inr (Or.inl ⟨rfl, rfl⟩)

/-- C10: for every open position, `highest_since_entry >= entry_price >=
lowest_since_entry`: both extremes are initialized to the entry price whenever
a position opens (fresh entry or reversal), every evaluation that keeps a
position open preserves the invariant, and while the same position persists
(no trade emitted) `highest_since_entry` never decreases,
`lowest_since_entry` never increases and the entry price is unchanged. -/
theorem C10_extremes_invariant (symbol : String) (p : Position ℚ) (inp : BarInputs ℚ)
    (hinv : p.lowest_since_entry ≤ p.entry_price ∧ p.entry_price ≤ p.highest_since_entry) :
    (∀ q, (bollinger_signal_step symbol none inp).newPos = some q →
      q.highest_since_entry = q.entry_price ∧ q.lowest_since_entry = q.entry_price) ∧
    (∀ q, (bollinger_signal_step symbol (some p) inp).newPos = some q →
      q.lowest_since_entry ≤ q.entry_price ∧ q.entry_price ≤ q.highest_since_entry) ∧
    (∀ q, (bollinger_signal_step symbol (some p) inp).newPos = some q →
      (bollinger_signal_step symbol (some p) inp).emitted = [] →
      p.highest_since_entry ≤ q.highest_since_entry ∧
      q.lowest_since_entry ≤ p.lowest_since_entry ∧ q.entry_price = p.entry_price) := by
  obtain ⟨hlo, hhi⟩ := hinv
  obtain ⟨e, d, hi0, lo0, sl, st⟩ := p
  simp only at hlo hhi
  refine ⟨?_, ?_, ?_⟩
  · simp only [bollinger_signal_step]
    split_ifs <;> simp
  · intro q hq
    revert hq
    cases d <;>
      (simp only [bollinger_signal_step]
       split_ifs with h1 h2 h3
       · simp
       · intro hq
         rcases after_stop_newPos_spec symbol _ _ inp with h | ⟨h, -⟩ | ⟨d', h, -⟩ <;>
           rw [h] at hq
         · exact absurd hq (by simp)
         · obtain rfl := Option.some_inj.mp hq
           constructor
           · exact le_trans (min_le_left _ _) hlo
           · exact le_trans hhi (le_max_left _ _)
         · obtain rfl := Option.some_inj.mp hq
           exact ⟨le_refl _, le_refl _⟩
       · simp
       · intro hq
         rcases after_stop_newPos_spec symbol _ _ inp with h | ⟨h, -⟩ | ⟨d', h, -⟩ <;>
           rw [h] at hq
         · exact absurd hq (by simp)
         · obtain rfl := Option.some_inj.mp hq
           constructor
           · exact le_trans (min_le_left _ _) hlo
           · exact le_trans hhi (le_max_left _ _)
         · obtain rfl := Option.some_inj.mp hq
           exact ⟨le_refl _, le_refl _⟩)
  · intro q hq hem
    revert hq hem
    cases d <;>
      (simp only [bollinger_signal_step]
       split_ifs with h1 h2 h3
       · simp
       · intro hq hem
         rcases after_stop_newPos_spec symbol _ _ inp with h | ⟨h, hem2⟩ | ⟨d', h, hem2⟩ <;>
           rw [h] at hq
         · exact absurd hq (by simp)
         · obtain rfl := Option.some_inj.mp hq
           exact ⟨le_max_left _ _, min_le_left _ _, rfl⟩
         · exact absurd hem hem2
       · simp
       · intro hq hem
         rcases after_stop_newPos_spec symbol _ _ inp with h | ⟨h, hem2⟩ | ⟨d', h, hem2⟩ <;>
           rw [h] at hq
         · exact absurd hq (by simp)
         · obtain rfl := Option.some_inj.mp hq
           exact ⟨le_max_left _ _, min_le_left _ _, rfl⟩
         · exact absurd hem hem2)

/-- Witness for C10 at a concrete open LONG with extremes 99/105 around the
entry 100, evaluated at price 102. -/
theorem C10_extremes_invariant_witness :
    (∀ q, (bollinger_signal_step "BTCUSDT" none
        (⟨102, 100, 1000, 0, 200, 1000, 0⟩ : BarInputs ℚ)).newPos = some q →
      q.highest_since_entry = q.entry_price ∧ q.lowest_since_entry = q.entry_price) ∧
    (∀ q, (bollinger_signal_step "BTCUSDT"
        (some ⟨100, Direction.BUY, 105, 99, 98, StopType.Initial⟩)
        (⟨102, 100, 1000, 0, 200, 1000, 0⟩ : BarInputs ℚ)).newPos = some q →
      q.lowest_since_entry ≤ q.entry_price ∧ q.entry_price ≤ q.highest_since_entry) ∧
    (∀ q, (bollinger_signal_step "BTCUSDT"
        (some ⟨100, Direction.BUY, 105, 99, 98, StopType.Initial⟩)
        (⟨102, 100, 1000, 0, 200, 1000, 0⟩ : BarInputs ℚ)).newPos = some q →
      (bollinger_signal_step "BTCUSDT"
        (some ⟨100, Direction.BUY, 105, 99, 98, StopType.Initial⟩)
        (⟨102, 100, 1000, 0, 200, 1000, 0⟩ : BarInputs ℚ)).emitted = [] →
      (⟨100, Direction.BUY, 105, 99, 98, StopType.Initial⟩ : Position ℚ).highest_since_entry ≤
        q.highest_since_entry ∧
      q.lowest_since_entry ≤
        (⟨100, Direction.BUY, 105, 99, 98, StopType.Initial⟩ : Position ℚ).lowest_since_entry ∧
      q.entry_price =
        (⟨100, Direction.BUY, 105, 99, 98, StopType.Initial⟩ : Position ℚ).entry_price) :=
  C10_extremes_invariant "BTCUSDT" ⟨100, Direction.BUY, 105, 99, 98, StopType.Initial⟩
    ⟨102, 100, 1000, 0, 200, 1000, 0⟩ ⟨by norm_num, by norm_num⟩

theorem cex0_newPos :
    cexStep0.newPos = some ⟨100, Direction.BUY, 100, 100, 98, StopType.Initial⟩ := by
  norm_num [cexStep0, cexInpOpen, bollinger_signal_step, new_buy_signal, new_sell_signal]

theorem cex1_newPos :
    cexStep1.newPos = some ⟨100, Direction.BUY, 105, 100, 1029 / 10, StopType.Trailing⟩ := by
  rw [cexStep1, cex0_newPos]
  norm_num [bollinger_signal_step, after_stop_section, new_buy_signal, new_sell_signal,
    at_sma_of, reversal_condition, cexInpRise, TRADING_FEE, abs_of_nonneg, abs_of_nonpos]

theorem cex1_emitted : cexStep1.emitted = [] := by
  rw [cexStep1, cex0_newPos]
  norm_num [bollinger_signal_step, after_stop_section, new_buy_signal, new_sell_signal,
    at_sma_of, reversal_condition, cexInpRise, TRADING_FEE, abs_of_nonneg, abs_of_nonpos]

theorem cex2_newPos :
    cexStep2.newPos = some ⟨100, Direction.BUY, 105, 100, 98, StopType.Initial⟩ := by
  rw [cexStep2, cex1_newPos]
  norm_num [bollinger_signal_step, after_stop_section, new_buy_signal, new_sell_signal,
    at_sma_of, reversal_condition, cexInpFall, TRADING_FEE, abs_of_nonneg, abs_of_nonpos]

theorem cex2_emitted : cexStep2.emitted = [] := by
  rw [cexStep2, cex1_newPos]
  norm_num [bollinger_signal_step, after_stop_section, new_buy_signal, new_sell_signal,
    at_sma_of, reversal_condition, cexInpFall, TRADING_FEE, abs_of_nonneg, abs_of_nonpos]

/-- C1 counterexample: a reachable three-evaluation run refuting the claimed
monotonicity over the whole life of a position.  A LONG opens at 100 (stop
98); at price 105 the trailing regime stores stop 102.9; at price 100.5 the
unrealized P&L falls to 0.5% < 1% and the stop-management step resets the
stored stop to `entry*0.98 = 98 < 102.9`, while the position stays open (no
trade is emitted at either of the two later evaluations). -/
theorem C1_stop_monotonicity_counterexample :
    cexStep0.newPos.isSome ∧ cexStep1.emitted = [] ∧ cexStep2.emitted = [] ∧
    cexStep1.newPos.map Position.signal = some Direction.BUY ∧
    cexStep2.newPos.map Position.signal = some Direction.BUY ∧
    cexStep1.newPos.map Position.stop_loss = some (1029 / 10) ∧
    cexStep2.newPos.map Position.stop_loss = some 98 ∧
    ¬ (1029 / 10 : ℚ) ≤ 98 := by
  refine ⟨?_, cex1_emitted, cex2_emitted, ?_, ?_, ?_, ?_, by norm_num⟩
  · rw [cex0_newPos]; rfl
  · rw [cex1_newPos]; rfl
  · rw [cex2_newPos]; rfl
  · rw [cex1_newPos]; rfl
  · rw [cex2_newPos]; rfl

/-- C1 as amended: while a LONG position stays open across an evaluation, its
stored stop_loss does not decrease at evaluations whose unrealized P&L is
>= 1% (the trailing regime), but at an evaluation with P&L < 1% it is reset to
the initial `entry_price*0.98`, which can lower it below a previously trailed
value; mirror statement for SHORT (non-increasing in the trailing regime,
reset to `entry_price*1.02`). -/
theorem C1_stop_monotonicity_amended (symbol : String) (p : Position ℚ) (inp : BarInputs ℚ)
    (q : Position ℚ)
    (hopen : (bollinger_signal_step symbol (some p) inp).newPos = some q)
    (hsame : (bollinger_signal_step symbol (some p) inp).emitted = []) :
    (p.signal = Direction.BUY →
      (1 ≤ unrealized_pnl p inp.current_price → p.stop_loss ≤ q.stop_loss) ∧
      (unrealized_pnl p inp.current_price < 1 →
        q.stop_loss = p.entry_price * (98 / 100))) ∧
    (p.signal = Direction.SELL →
      (1 ≤ unrealized_pnl p inp.current_price → q.stop_loss ≤ p.stop_loss) ∧
      (unrealized_pnl p inp.current_price < 1 →
        q.stop_loss = p.entry_price * (102 / 100))) := by
  obtain ⟨e, d, hi0, lo0, sl, st⟩ := p
  revert hopen hsame
  cases d
  · simp only [unrealized_pnl, bollinger_signal_step]
    split_ifs with h1 h2 h3
    · intro hopen
      exact absurd hopen (by simp)
    · intro hopen hsame
      rcases after_stop_newPos_spec symbol _ _ inp with h | ⟨h, -⟩ | ⟨d', h, hem⟩
      · rw [h] at hopen
        exact absurd hopen (by simp)
      · rw [h] at hopen
        obtain rfl := Option.some_inj.mp hopen
        refine ⟨fun _ => ⟨fun _ => le_max_left _ _, fun hlt => absurd h1 (not_le.mpr hlt)⟩,
          fun hsig => absurd hsig (by simp)⟩
      · exact absurd hsame hem
    · intro hopen
      exact absurd hopen (by simp)
    · intro hopen hsame
      rcases after_stop_newPos_spec symbol _ _ inp with h | ⟨h, -⟩ | ⟨d', h, hem⟩
      · rw [h] at hopen
        exact absurd hopen (by simp)
      · rw [h] at hopen
        obtain rfl := Option.some_inj.mp hopen
        refine ⟨fun _ => ⟨fun hge => absurd hge h1, fun _ => rfl⟩,
          fun hsig => absurd hsig (by simp)⟩
      · exact absurd hsame hem
  · simp only [unrealized_pnl, bollinger_signal_step]
    split_ifs with h1 h2 h3
    · intro hopen
      exact absurd hopen (by simp)
    · intro hopen hsame
      rcases after_stop_newPos_spec symbol _ _ inp with h | ⟨h, -⟩ | ⟨d', h, hem⟩
      · rw [h] at hopen
        exact absurd hopen (by simp)
      · rw [h] at hopen
        obtain rfl := Option.some_inj.mp hopen
        refine ⟨fun hsig => absurd hsig (by simp),
          fun _ => ⟨fun _ => min_le_left _ _, fun hlt => absurd h1 (not_le.mpr hlt)⟩⟩
      · exact absurd hsame hem
    · intro hopen
      exact absurd hopen (by simp)
    · intro hopen hsame
      rcases after_stop_newPos_spec symbol _ _ inp with h | ⟨h, -⟩ | ⟨d', h, hem⟩
      · rw [h] at hopen
        exact absurd hopen (by simp)
      · rw [h] at hopen
        obtain rfl := Option.some_inj.mp hopen
        refine ⟨fun hsig => absurd hsig (by simp),
          fun _ => ⟨fun hge => absurd hge h1, fun _ => rfl⟩⟩
      · exact absurd hsame hem

/-- Witness for the amended C1 at the trailing evaluation of the
counterexample run. -/
theorem C1_stop_monotonicity_amended_witness :
    ((⟨100, Direction.BUY, 100, 100, 98, StopType.Initial⟩ : Position ℚ).signal =
        Direction.BUY →
      (1 ≤ unrealized_pnl (⟨100, Direction.BUY, 100, 100, 98, StopType.Initial⟩ : Position ℚ)
          cexInpRise.current_price →
        (⟨100, Direction.BUY, 100, 100, 98, StopType.Initial⟩ : Position ℚ).stop_loss ≤
          (⟨100, Direction.BUY, 105, 100, 1029 / 10, StopType.Trailing⟩ : Position ℚ).stop_loss) ∧
      (unrealized_pnl (⟨100, Direction.BUY, 100, 100, 98, StopType.Initial⟩ : Position ℚ)
          cexInpRise.current_price < 1 →
        (⟨100, Direction.BUY, 105, 100, 1029 / 10, StopType.Trailing⟩ : Position ℚ).stop_loss =
          (⟨100, Direction.BUY, 100, 100, 98, StopType.Initial⟩ : Position ℚ).entry_price *
            (98 / 100))) ∧
    ((⟨100, Direction.BUY, 100, 100, 98, StopType.Initial⟩ : Position ℚ).signal =
        Direction.SELL →
      (1 ≤ unrealized_pnl (⟨100, Direction.BUY, 100, 100, 98, StopType.Initial⟩ : Position ℚ)
          cexInpRise.current_price →
        (⟨100, Direction.BUY, 105, 100, 1029 / 10, StopType.Trailing⟩ : Position ℚ).stop_loss ≤
          (⟨100, Direction.BUY, 100, 100, 98, StopType.Initial⟩ : Position ℚ).stop_loss) ∧
      (unrealized_pnl (⟨100, Direction.BUY, 100, 100, 98, StopType.Initial⟩ : Position ℚ)
          cexInpRise.current_price < 1 →
        (⟨100, Direction.BUY, 105, 100, 1029 / 10, StopType.Trailing⟩ : Position ℚ).stop_loss =
          (⟨100, Direction.BUY, 100, 100, 98, StopType.Initial⟩ : Position ℚ).entry_price *
            (102 / 100))) :=
  C1_stop_monotonicity_amended "BTCUSDT" ⟨100, Direction.BUY, 100, 100, 98, StopType.Initial⟩
    cexInpRise ⟨100, Direction.BUY, 105, 100, 1029 / 10, StopType.Trailing⟩
    (by norm_num [bollinger_signal_step, after_stop_section, new_buy_signal, new_sell_signal,
      at_sma_of, reversal_condition, cexInpRise, TRADING_FEE, abs_of_nonneg, abs_of_nonpos])
    (by norm_num [bollinger_signal_step, after_stop_section, new_buy_signal, new_sell_signal,
      at_sma_of, reversal_condition, cexInpRise, TRADING_FEE, abs_of_nonneg, abs_of_nonpos])

theorem update_perf_win_rate (prev : PerformanceMetrics) (h : List (Trade ℝ)) (hne : h ≠ []) :
    (update_performance_metrics prev h).win_rate =
      if h.map Trade.pnl ≠ [] then
        (((h.map Trade.pnl).filter (fun p => decide (0 < p))).length : ℝ) /
          ((h.map Trade.pnl).length : ℝ) * 100
      else 0 := by
  simp only [update_performance_metrics, if_neg hne]
  simp only [apply_ite PerformanceMetrics.win_rate]
  simp only [ite_self]

theorem update_perf_profit_factor (prev : PerformanceMetrics) (h : List (Trade ℝ))
    (hne : h ≠ []) :
    (update_performance_metrics prev h).profit_factor =
      if ((h.map Trade.pnl).filter (fun p => decide (p < 0))) ≠ [] ∧
          ((h.map Trade.pnl).filter (fun p => decide (p < 0))).sum ≠ 0 then
        ((h.map Trade.pnl).filter (fun p => decide (0 < p))).sum /
          |((h.map Trade.pnl).filter (fun p => decide (p < 0))).sum|
      else 0 := by
  simp only [update_performance_metrics, if_neg hne]
  simp only [apply_ite PerformanceMetrics.profit_factor]
  simp only [ite_self]

theorem update_perf_total_pnl (prev : PerformanceMetrics) (h : List (Trade ℝ))
    (hne : h ≠ []) :
    (update_performance_metrics prev h).total_pnl = (h.map Trade.pnl).sum := by
  simp only [update_performance_metrics, if_neg hne]
  simp only [apply_ite PerformanceMetrics.total_pnl]
  simp only [ite_self]

/-- C7: after every ledger append the recomputed summary satisfies
`winRate = winningCount / totalCount * 100` (wins are trades with P&L > 0,
the total counts all retained trades) and
`profitFactor = sum(wins) / |sum(losses)|`, defined as 0 when there are no
losing trades or the loss sum is zero; on the ledger with P&L column
`[+2, +1, +0.5, -1, -0.5]` the winRate is 60, the total P&L is 2.0 and the
profit factor is 3.5/1.5. -/
theorem C7_performance_formulas (prev : PerformanceMetrics) (h : List (Trade ℝ)) (hne : h ≠ []) :
    (update_performance_metrics prev h).win_rate =
      (((h.map Trade.pnl).filter (fun p => decide (0 < p))).length : ℝ) /
        ((h.map Trade.pnl).length : ℝ) * 100 ∧
    (update_performance_metrics prev h).profit_factor =
      (if ((h.map Trade.pnl).filter (fun p => decide (p < 0))) = [] ∨
          ((h.map Trade.pnl).filter (fun p => decide (p < 0))).sum = 0 then 0
        else ((h.map Trade.pnl).filter (fun p => decide (0 < p))).sum /
          |((h.map Trade.pnl).filter (fun p => decide (p < 0))).sum|) ∧
    (update_performance_metrics initialMetrics exampleLedger).win_rate = 60 ∧
    (update_performance_metrics initialMetrics exampleLedger).total_pnl = 2 ∧
    (update_performance_metrics initialMetrics exampleLedger).profit_factor = 3.5 / 1.5 := by
  have hex : exampleLedger ≠ [] := by
    simp [exampleLedger]
  refine ⟨?_, ?_, ?_, ?_, ?_⟩
  · rw [update_perf_win_rate prev h hne, if_pos (by simpa using hne)]
  · rw [update_perf_profit_factor prev h hne]
    by_cases hc : ((h.map Trade.pnl).filter (fun p => decide (p < 0))) = [] ∨
        ((h.map Trade.pnl).filter (fun p => decide (p < 0))).sum = 0
    · rw [if_pos hc, if_neg (by tauto)]
    · rw [if_neg hc, if_pos (by tauto)]
  · rw [update_perf_win_rate _ _ hex]
    norm_num [exampleLedger, List.filter, List.cons_ne_nil]
  · rw [update_perf_total_pnl _ _ hex]
    norm_num [exampleLedger]
  · rw [update_perf_profit_factor _ _ hex]
    norm_num [exampleLedger, List.filter, List.cons_ne_nil, abs_of_nonpos]

/-- Witness for C7 on the worked five-trade ledger. -/
theorem C7_performance_formulas_witness :
    (update_performance_metrics initialMetrics exampleLedger).win_rate =
      (((exampleLedger.map Trade.pnl).filter (fun p => decide (0 < p))).length : ℝ) /
        ((exampleLedger.map Trade.pnl).length : ℝ) * 100 ∧
    (update_performance_metrics initialMetrics exampleLedger).profit_factor =
      (if ((exampleLedger.map Trade.pnl).filter (fun p => decide (p < 0))) = [] ∨
          ((exampleLedger.map Trade.pnl).filter (fun p => decide (p < 0))).sum = 0 then 0
        else ((exampleLedger.map Trade.pnl).filter (fun p => decide (0 < p))).sum /
          |((exampleLedger.map Trade.pnl).filter (fun p => decide (p < 0))).sum|) ∧
    (update_performance_metrics initialMetrics exampleLedger).win_rate = 60 ∧
    (update_performance_metrics initialMetrics exampleLedger).total_pnl = 2 ∧
    (update_performance_metrics initialMetrics exampleLedger).profit_factor = 3.5 / 1.5 :=
  C7_performance_formulas initialMetrics exampleLedger (by simp [exampleLedger])

theorem update_all_signals_append (xs ys : List String)
    (fetch : String → Option (List Candle)) (st : EngineState) :
    update_all_signals (xs ++ ys) fetch st =
      ((update_all_signals xs fetch st).1 ++
        (update_all_signals ys fetch (update_all_signals xs fetch st).2).1,
       (update_all_signals ys fetch (update_all_signals xs fetch st).2).2) := by
  induction xs generalizing st with
  | nil => simp [update_all_signals]
  | cons a rest ih =>
    simp only [List.cons_append, update_all_signals]
    simp only [List.append_eq]
    rw [ih]

/-- C5: an asset whose fetched candle history has fewer than 50 candles
produces the placeholder snapshot with signal `ERROR` and reason `No data`
and leaves the engine state (open positions, trade ledger, performance
summary) exactly as it was; and within a cycle the evaluation of every other
asset is unaffected — the cycle over `xs ++ [a] ++ ys` yields the same final
state and the same snapshots for the assets of `xs` and `ys` as the cycle
over `xs ++ ys`, with the error snapshot for `a` spliced in between. -/
theorem C5_short_history_error_isolated (a : String) (fetch : String → Option (List Candle)) (d : List Candle)
    (hd : fetch a = some d) (h50 : d.length < 50) (st : EngineState) (xs ys : List String) :
    fetch_asset_data a (fetch a) st = (errorSnapshot a StatusMsg.noData, st) ∧
    (errorSnapshot a StatusMsg.noData).signal = SignalKind.ERROR ∧
    (errorSnapshot a StatusMsg.noData).reason = StatusMsg.noData ∧
    update_all_signals (xs ++ a :: ys) fetch st =
      ((update_all_signals xs fetch st).1 ++
        (a, errorSnapshot a StatusMsg.noData) ::
          (update_all_signals ys fetch (update_all_signals xs fetch st).2).1,
       (update_all_signals ys fetch (update_all_signals xs fetch st).2).2) ∧
    update_all_signals (xs ++ ys) fetch st =
      ((update_all_signals xs fetch st).1 ++
        (update_all_signals ys fetch (update_all_signals xs fetch st).2).1,
       (update_all_signals ys fetch (update_all_signals xs fetch st).2).2) := by
  have hfad : ∀ s : EngineState, fetch_asset_data a (fetch a) s =
      (errorSnapshot a StatusMsg.noData, s) := by
    intro s
    rw [hd]
    simp only [fetch_asset_data]
    rw [if_pos h50]
  refine ⟨hfad st, rfl, rfl, ?_, update_all_signals_append xs ys fetch st⟩
  rw [update_all_signals_append xs (a :: ys) fetch st]
  simp only [update_all_signals]
  rw [hfad]

/-- Witness for C5: a 30-bar history for `BTCUSDT` inside the cycle
`[ETHUSDT, BTCUSDT, SOLUSDT]` starting from the initial engine state. -/
theorem C5_short_history_error_isolated_witness :
    fetch_asset_data "BTCUSDT" (shortFetch "BTCUSDT") initialState =
      (errorSnapshot "BTCUSDT" StatusMsg.noData, initialState) ∧
    (errorSnapshot "BTCUSDT" StatusMsg.noData).signal = SignalKind.ERROR ∧
    (errorSnapshot "BTCUSDT" StatusMsg.noData).reason = StatusMsg.noData ∧
    update_all_signals (["ETHUSDT"] ++ "BTCUSDT" :: ["SOLUSDT"]) shortFetch initialState =
      ((update_all_signals ["ETHUSDT"] shortFetch initialState).1 ++
        ("BTCUSDT", errorSnapshot "BTCUSDT" StatusMsg.noData) ::
          (update_all_signals ["SOLUSDT"] shortFetch
            (update_all_signals ["ETHUSDT"] shortFetch initialState).2).1,
       (update_all_signals ["SOLUSDT"] shortFetch
         (update_all_signals ["ETHUSDT"] shortFetch initialState).2).2) ∧
    update_all_signals (["ETHUSDT"] ++ ["SOLUSDT"]) shortFetch initialState =
      ((update_all_signals ["ETHUSDT"] shortFetch initialState).1 ++
        (update_all_signals ["SOLUSDT"] shortFetch
          (update_all_signals ["ETHUSDT"] shortFetch initialState).2).1,
       (update_all_signals ["SOLUSDT"] shortFetch
         (update_all_signals ["ETHUSDT"] shortFetch initialState).2).2) :=
  C5_short_history_error_isolated "BTCUSDT" shortFetch shortHistory rfl
    (by simp [shortHistory]) initialState ["ETHUSDT"] ["SOLUSDT"]
